import Mathlib

/-!
# NewsMind — verification of the ingestion / retrieval pipeline

Shallow embedding of the core functions of the NewsMind repository
(`modules/embedding_manager.py`, `modules/summarizer.py`,
`modules/news_fetcher.py`, `modules/chat_agent.py`, `app.py`) together with
proofs about them.

Modelling conventions:
* Python floats are modelled by exact arithmetic: similarity scores are
  rationals / reals, `0.0/0.0 = NaN` is modelled by `Option.none`.
* External services (the sentence-transformer model, the OpenAI / Gemini
  endpoints, NewsAPI, newspaper3k) are oracles passed in as function
  arguments; a fallible call is an `Except` value.
* A raised Python exception that escapes a function is an `Except.error`;
  a function that can never raise returns a plain value.
* The SQLAlchemy stores are lists of rows passed in and out explicitly,
  and side effects of interest (which external calls were made, which rows
  were inserted) are recorded in an explicit event trace.
* Python truthiness on optional strings (`if not x`) is `falsyStr`.
-/

namespace NewsMind

/-- Python truthiness test `not x` for an optional string: `None` and the
empty string are falsy. -/
def falsyStr : Option String → Bool
  | none => true
  | some s => s == ""

/-- Python `str.strip()`: drop leading and trailing whitespace.  (Defined
on the character list so that it reduces inside the kernel; `String.trim`
computes the same characters.) -/
def py_strip (s : String) : String :=
  String.mk (((s.data.dropWhile Char.isWhitespace).reverse.dropWhile
    Char.isWhitespace).reverse)

/-- Python `str.lower()` (ASCII case folding suffices for the inputs the
code compares). -/
def py_lower (s : String) : String := String.mk (s.data.map Char.toLower)

/-- Python `str.startswith(pre)` (defined on the character list so that it
reduces inside the kernel). -/
def py_startswith (s pre : String) : Bool := pre.data.isPrefixOf s.data

/-! ## modules/embedding_manager.py -/

/-- `np.dot(v1, v2)` on two equal-length parsed vectors over exact
rationals. On unequal lengths `np.dot` raises; the caller models that
branch separately, so truncation by `zipWith` is never relied upon. -/
def dotQ (v w : List ℚ) : ℚ := (List.zipWith (· * ·) v w).sum

/-- Shallow embedding of `compute_similarity(vec1, vec2)`.

Inputs are given in parsed form: `none` means the argument string does not
`json.loads` to a numeric vector (that parse error is caught by the
`except` clause and yields `0.0`); `some v` means it parses to `v`.

Branches, in the order the Python executes them:
* either array has `size == 0` → `0.0`;
* `np.dot` on mismatched lengths raises `ValueError`, caught → `0.0`;
* both norms are computed; when `norm(v1) * norm(v2) == 0` (over exact
  reals this happens exactly when some `vi` is all zeros, and then the
  numerator `np.dot(v1, v2)` is also `0`), the division is IEEE
  `0.0 / 0.0 = NaN`; NaN is not an exception, so the `except` clause does
  NOT fire and the NaN is returned — modelled as `none`;
* otherwise the exact cosine value is returned. -/
noncomputable def compute_similarity (vec1 vec2 : Option (List ℚ)) : Option ℝ :=
  match vec1, vec2 with
  | some v1, some v2 =>
    if v1 = [] ∨ v2 = [] then some 0
    else if v1.length ≠ v2.length then some 0
    else if dotQ v1 v1 = 0 ∨ dotQ v2 v2 = 0 then none
    else some ((dotQ v1 v2 : ℝ) /
      (Real.sqrt (dotQ v1 v1 : ℝ) * Real.sqrt (dotQ v2 v2 : ℝ)))
  | none, _ => some 0
  | some _, none => some 0

/-- Shallow embedding of `generate_embedding(text)`.

`encode` is the external composite
`json.dumps(get_model().encode(text).tolist())` (sentence-transformer plus
JSON serialisation), which is only invoked on non-empty, non-whitespace
input. Python's `if not text or not text.strip()` is
`text = "" ∨ text.strip() = ""`, and `json.dumps([])` is the literal
string `"[]"`. -/
def generate_embedding (encode : String → String) (text : String) : String :=
  if text = "" ∨ py_strip text = "" then "[]" else encode text

/-! ## modules/summarizer.py -/

/-- The f-string prompt built by `summarize_article` (literal text, with
the indentation of the Python triple-quoted string elided — no claim
depends on the prompt text, only on which oracle it is fed to). -/
def summarize_prompt (title safe_text : String) : String :=
  "You are a professional news summarization assistant.\n\n" ++
  "Summarize the article below into **2-3 concise bullet points**, \n" ++
  "focusing only on the factual content. \n" ++
  "Avoid personal opinions, speculation, or emotional wording.\n\n" ++
  "Each bullet MUST be on its own line and begin with a hyphen (\"- \"). " ++
  "Do NOT combine multiple bullet points into one line.\n" ++
  "The summary should be:\n- factual\n- concise\n" ++
  "- neutral in tone, written clear, plain\n\n" ++
  "Title: " ++ title ++ "\n\nArticle Content:\n" ++ safe_text ++ "\n"

/-- The post-processing loop
`while "\n\n-" in cleaned: cleaned = cleaned.replace("\n\n-", "\n-")`.
Each iteration shortens the string, so `fuel := cleaned.length` reaches
the fixpoint; the fuel argument only makes termination structural. -/
def collapse_blank_lines : Nat → String → String
  | 0, s => s
  | fuel + 1, s =>
    let t := s.replace "\n\n-" "\n-"
    if t = s then s else collapse_blank_lines fuel t

/-- Post-processing of the raw LLM response in `summarize_article`:
`strip`, normalise bullet markers, collapse blank lines, `strip`. -/
def postprocess_summary (raw : String) : String :=
  let summary := py_strip raw
  let cleaned := (summary.replace ". - " "\n. - ").replace "•" "- "
  py_strip (collapse_blank_lines cleaned.length cleaned)

/-- Shallow embedding of `summarize_article(title, text)`.

`apiKey` is the module-level `OPENAI_API_KEY` (`None` or the empty string
are both falsy and treated as missing).  `llm` is the
`client.chat.completions.create` call followed by
`response.choices[0].message.content.strip()`; `Except.error` is any
exception it raises.

The missing-key check `if not OPENAI_API_KEY: raise Exception(...)` sits
BEFORE the `try` block, so that exception escapes the function — hence the
`Except.error` result; only failures of the provider call itself are
converted to the degraded string. -/
def summarize_article (apiKey : Option String)
    (llm : String → Except String String) (title text : String) :
    Except String String :=
  if falsyStr apiKey then Except.error "OpenAI API key not set."
  else
    let safe_text := text.take 6000
    match llm (summarize_prompt title safe_text) with
    | Except.ok raw => Except.ok (postprocess_summary raw)
    | Except.error _ => Except.ok "Summary unavailable."

/-- The f-string prompt built by `analyze_sentiment`. -/
def sentiment_prompt (summary_text : String) : String :=
  "Determine the sentiment of the news summary below.\n\n" ++
  "Respond with ONLY one of the following words:\n" ++
  "- positive\n- neutral\n- negative\n\nSummary:\n" ++ summary_text ++ "\n"

/-- Shallow embedding of `analyze_sentiment(summary_text)`.  The whole
provider call sits inside `try/except`, so a provider failure yields
`"neutral"`; a raw answer outside the three labels (after
`strip().lower()`) is coerced to `"neutral"`. -/
def analyze_sentiment (llm : String → Except String String)
    (summary_text : String) : String :=
  match llm (sentiment_prompt summary_text) with
  | Except.error _ => "neutral"
  | Except.ok raw =>
    let sentiment := py_lower (py_strip raw)
    if sentiment ∉ ["positive", "neutral", "negative"] then "neutral"
    else sentiment

/-! ## models.py — the rows the pipeline reads and writes -/

/-- A row of the `articles` table (`models.Article`). `fetched_at` is an
abstract clock tick; `published_at` and `embedding` are nullable
columns. -/
structure Article where
  title : String
  author : String
  source : String
  url : String
  category : String
  published_at : Option String
  fetched_at : Nat
  summary : String
  sentiment : String
  embedding : Option String
deriving DecidableEq

/-- A row of the `chat_history` table (`models.ChatHistory`). -/
structure ChatHistory where
  role : String
  message : String
  timestamp : Nat
  user_id : Nat
  article_id : Option Nat
deriving DecidableEq

/-- A row of the `user_articles` table (`models.UserArticle`). -/
structure UserArticle where
  user_id : Nat
  article_id : Nat
  action : String
  rating : Option Int
  notes : Option String
  timestamp : Nat
deriving DecidableEq

/-! ## modules/chat_agent.py -/

/-- Python's float `>` applied to an optional similarity value: `none`
models NaN, and `nan > 0` is False.  `posSim p.1` is exactly the code's
`if sim > 0` test. -/
def posSim : Option ℚ → Bool
  | none => false
  | some q => decide (0 < q)

/-- The scored-then-sorted intermediate list of `retrieve_relevant_articles`:
filter rows whose `embedding` column is not NULL (the SQLAlchemy
`isnot(None)` query), drop falsy embeddings (`if not art.embedding:
continue`), pair each article with its similarity, and apply
`scored.sort(key=lambda x: x[0], reverse=True)`.

`sim` is `compute_similarity` on the serialised vectors: the similarity is
a float modelled as a rational, with `none` for NaN (the non-empty
zero-magnitude case of `compute_similarity`).  `pysort` is CPython's
`list.sort(key=..., reverse=True)`, a comparison sort passed in as an
oracle because its output is only specified up to its documented
guarantees: the output is a permutation of the input, and when the keys
admit a consistent total comparison — in particular, no NaN key — it is a
stable descending sort.  With a NaN key every float comparison is False
and the resulting order is unspecified (and observably NOT descending,
see the C2 counterexample). -/
def scored_sorted (sim : String → String → Option ℚ)
    (pysort : List (Option ℚ × Article) → List (Option ℚ × Article))
    (articles : List Article) (query_emb : String) :
    List (Option ℚ × Article) :=
  let stored := articles.filter (fun a => a.embedding.isSome)
  let present := stored.filter (fun a => !(a.embedding.getD "" == ""))
  let scored := present.map (fun a => (sim query_emb (a.embedding.getD ""), a))
  pysort scored

/-- Shallow embedding of `retrieve_relevant_articles(query, top_k)`:
embed the query, return `[]` on the falsy / sentinel embedding, otherwise
truncate the sorted scored list to `top_k` and keep the strictly positive
similarities (`[art for sim, art in scored[:top_k] if sim > 0]`). -/
def retrieve_relevant_articles (encode : String → String)
    (sim : String → String → Option ℚ)
    (pysort : List (Option ℚ × Article) → List (Option ℚ × Article))
    (articles : List Article) (query : String) (top_k : Nat) : List Article :=
  let query_emb := generate_embedding encode query
  if query_emb = "" ∨ query_emb = "[]" then []
  else
    (((scored_sorted sim pysort articles query_emb).take top_k).filter
      (fun p => posSim p.1)).map (fun p => p.2)

/-- One numbered block of `build_context_from_articles`. -/
def article_block (idx : Nat) (art : Article) : String :=
  "[" ++ toString idx ++ "] Title: " ++ art.title ++ "\n" ++
  "Source: " ++ art.source ++ " | Category: " ++ art.category ++
  " | Published: " ++ art.published_at.getD "" ++ "\n" ++
  "Summary:\n" ++ art.summary ++ "\n"

/-- Shallow embedding of `build_context_from_articles(articles)`
(`enumerate(articles, start=1)` then `"\n\n".join(blocks)`). -/
def build_context_from_articles (articles : List Article) : String :=
  String.intercalate "\n\n" (articles.mapIdx (fun i art => article_block (i + 1) art))

/-- Shallow embedding of `_call_openai`: missing key yields the fixed
apology without attempting the call; a call-time exception is caught and
converted to the other fixed apology. -/
def call_openai (apiKey : Option String)
    (llm : String → String → Except String String)
    (system_prompt user_prompt : String) : String :=
  if falsyStr apiKey then "OpenAI API key is not configured."
  else
    match llm system_prompt user_prompt with
    | Except.ok s => py_strip s
    | Except.error _ => "Sorry, something went wrong with OpenAI right now."

/-- Shallow embedding of `_call_gemini`, same shape as `call_openai`. -/
def call_gemini (apiKey : Option String)
    (llm : String → String → Except String String)
    (system_prompt user_prompt : String) : String :=
  if falsyStr apiKey then "Gemini API key is not configured."
  else
    match llm system_prompt user_prompt with
    | Except.ok s => py_strip s
    | Except.error _ => "Sorry, something went wrong with Gemini right now."

/-- Shallow embedding of `_call_llm`: `(provider or "openai").lower()`,
dispatch `"gemini"` to Gemini, everything else to the OpenAI default. -/
def call_llm (openaiKey geminiKey : Option String)
    (openaiLLM geminiLLM : String → String → Except String String)
    (provider : String) (system_prompt user_prompt : String) : String :=
  let p := py_lower (if provider == "" then "openai" else provider)
  if p = "gemini" then call_gemini geminiKey geminiLLM system_prompt user_prompt
  else call_openai openaiKey openaiLLM system_prompt user_prompt

/-- The grounded user prompt of `answer_question` when retrieval found
articles. -/
def user_prompt_with_context (question context : String) : String :=
  "User question:\n" ++ question ++ "\n\n" ++
  "Here are relevant news summaries:\n" ++ context ++ "\n\n" ++
  "Using ONLY the information in these summaries, " ++
  "answer the user's question concisely. If the information is not covered, " ++
  "say that you don't know based on the available news."

/-- The no-grounding-data user prompt of `answer_question`. -/
def user_prompt_no_context (question : String) : String :=
  "User question:\n" ++ question ++ "\n\n" ++
  "There are currently no relevant news summaries available in the database. " ++
  "Explain that you cannot answer based on the available data."

/-- The fixed system prompt of `answer_question`. -/
def newsmind_system_prompt : String :=
  "You are NewsMind, a helpful personal news assistant. " ++
  "You must base your answers ONLY on the article summaries provided to you. " ++
  "If the answer is not in the summaries, you must say you don't know."

/-- Shallow embedding of `answer_question(user, question, provider, top_k)`.

Returns `((answer, relevant_articles), new chat log)`.  `now` is the single
`datetime.utcnow()` read, shared by the two turns; the two
`db.session.add` calls followed by one `db.session.commit()` are the single
append of both rows at the end. -/
def answer_question (encode : String → String)
    (sim : String → String → Option ℚ)
    (pysort : List (Option ℚ × Article) → List (Option ℚ × Article))
    (openaiKey geminiKey : Option String)
    (openaiLLM geminiLLM : String → String → Except String String)
    (articles : List Article) (chat_log : List ChatHistory)
    (user_id : Nat) (question : String) (provider : String) (top_k : Nat)
    (now : Nat) : (String × List Article) × List ChatHistory :=
  let relevant_articles :=
    retrieve_relevant_articles encode sim pysort articles question top_k
  let user_prompt :=
    if relevant_articles ≠ [] then
      user_prompt_with_context question (build_context_from_articles relevant_articles)
    else user_prompt_no_context question
  let answer := call_llm openaiKey geminiKey openaiLLM geminiLLM provider
    newsmind_system_prompt user_prompt
  let user_msg : ChatHistory :=
    ⟨"user", "[" ++ provider ++ "] " ++ question, now, user_id, none⟩
  let bot_msg : ChatHistory := ⟨"bot", answer, now, user_id, none⟩
  ((answer, relevant_articles), chat_log ++ [user_msg, bot_msg])

/-! ## modules/news_fetcher.py -/

/-- One element of `data.get("articles", [])` as the code reads it:
`item.get(...)` may be absent (`none`). -/
structure NewsItem where
  author : Option String
  title : Option String
  url : Option String
  source : String
  publishedAt : Option String
deriving DecidableEq

/-- Observable side effects of one ingestion run: the outbound NewsAPI
request and, per item, the external-call / persistence steps, each tagged
with the item's URL. -/
inductive FetchEvent where
  | apiQuery (topic : String)
  | extractCall (url : String)
  | summarizeCall (url : String)
  | sentimentCall (url : String)
  | embedCall (url : String)
  | insertRow (url : String)
deriving DecidableEq

/-- The URL an event concerns (`none` for the API query itself). -/
def FetchEvent.itemUrl : FetchEvent → Option String
  | apiQuery _ => none
  | extractCall u => some u
  | summarizeCall u => some u
  | sentimentCall u => some u
  | embedCall u => some u
  | insertRow u => some u

/-- The external collaborators of `fetch_from_newsapi`, as deterministic
oracles: `extract` is `extract_full_text` (`None` on any
newspaper3k failure or on text shorter than 200 characters); `summarize`
is `summarize_article` — `Except.error` is the exception it raises when
`OPENAI_API_KEY` is missing, which `fetch_from_newsapi` does NOT catch
(the call sits outside any `try`), while `Except.ok` is a returned
summary (provider call failures are already degraded to
"Summary unavailable." inside `summarize_article`); `sentiment` is
`analyze_sentiment` (total — it never raises); `embed` is
`generate_embedding`; `nowPub` / `nowFetched` are the `datetime.utcnow()`
reads. -/
structure FetchEnv where
  extract : String → Option String
  summarize : String → String → Except String String
  sentiment : String → String
  embed : String → String
  nowPub : String
  nowFetched : Nat

/-- Accumulator of the per-item loop of `fetch_from_newsapi`: the
`articles` table, the event trace, and the `new_articles` counter. -/
structure RunState where
  store : List Article
  trace : List FetchEvent
  new_articles : Nat
deriving DecidableEq

/-- One iteration of the `for item in data.get("articles", [])` loop.

Check order is the source's: skip bad data (falsy title / url), skip
duplicates (`Article.query.filter_by(url=url).first()`), extract, reject
invalid text, truncate, summarize → sentiment → embed, insert.  The
second component is the exception escaping the iteration: the
`summarize_article` call is not wrapped in any `try`, so its raise (the
missing-OpenAI-key case) aborts the loop, with the store and trace as
they stand at that moment.

The `try/except` around the insert catches constraint violations; in this
sequential model the URL was just checked absent, so the list insert
always succeeds and the rollback branch is unreachable. -/
def process_item (env : FetchEnv) (topic : String) (st : RunState)
    (item : NewsItem) : RunState × Option String :=
  let author := if falsyStr item.author then "Unknown" else item.author.getD ""
  let title := item.title.getD ""
  let url := item.url.getD ""
  let published_at :=
    if falsyStr item.publishedAt then env.nowPub else item.publishedAt.getD ""
  if falsyStr item.title ∨ falsyStr item.url then (st, none)
  else if st.store.any (fun r => r.url == url) then (st, none)
  else
    let st1 : RunState := { st with trace := st.trace ++ [FetchEvent.extractCall url] }
    match env.extract url with
    | none => (st1, none)
    | some text =>
      if text = "" ∨ text.length < 200 ∨ py_startswith text "[Extractor]" then
        (st1, none)
      else
        let full_text := text.take 5000
        match env.summarize title full_text with
        | Except.error msg =>
          ({ st1 with trace := st1.trace ++ [FetchEvent.summarizeCall url] },
            some msg)
        | Except.ok summary =>
          let sentiment := env.sentiment summary
          let combined_text := py_strip title ++ "\n\n" ++ py_strip summary
          let embedding := env.embed combined_text
          let article : Article :=
            { title := title.take 500, author := author.take 100,
              source := item.source.take 200, url := url, category := topic,
              published_at := some published_at, fetched_at := env.nowFetched,
              summary := summary, sentiment := sentiment,
              embedding := some embedding }
          ({ store := st1.store ++ [article],
             trace := st1.trace ++ [FetchEvent.summarizeCall url,
               FetchEvent.sentimentCall url, FetchEvent.embedCall url,
               FetchEvent.insertRow url],
             new_articles := st1.new_articles + 1 }, none)

/-- The whole per-item loop; an uncaught exception from one iteration
aborts the remaining items, exactly as a raised exception leaves the
Python `for` loop. -/
def run_items (env : FetchEnv) (topic : String) :
    RunState → List NewsItem → RunState × Option String
  | st, [] => (st, none)
  | st, it :: its =>
    match process_item env topic st it with
    | (st', none) => run_items env topic st' its
    | (st', some msg) => (st', some msg)

/-- Outcome of `requests.get(...)`, `raise_for_status()` and `.json()`:
`failure` is any exception from those three (caught by the `except`),
`success` carries the decoded body. -/
inductive HttpResult where
  | failure
  | success (status : String) (message : Option String) (articles : List NewsItem)

/-- Shallow embedding of `fetch_from_newsapi(topic, language, page_size)`.

Returns the escaping exception or `(new store, new_articles)`, paired with
the event trace.  `http` is the transport oracle, keyed by the request
parameters.  The missing-key check precedes everything, including the
network request.  A transport failure or a body status other than `"ok"`
is logged and yields `0` with the store untouched.  An exception escaping
the per-item loop (an uncaught `summarize_article` raise) escapes
`fetch_from_newsapi` itself, leaving the rows committed so far in the
database. -/
def fetch_from_newsapi (env : FetchEnv)
    (http : String → String → Nat → HttpResult) (apiKey : Option String)
    (topic : String) (language : String) (page_size : Nat)
    (store : List Article) :
    Except String (List Article × Nat) × List FetchEvent :=
  if falsyStr apiKey then
    (Except.error "NEWS_API_KEY missing in environment", [])
  else
    match http topic language page_size with
    | HttpResult.failure => (Except.ok (store, 0), [FetchEvent.apiQuery topic])
    | HttpResult.success status _ items =>
      if status ≠ "ok" then (Except.ok (store, 0), [FetchEvent.apiQuery topic])
      else
        let final := run_items env topic ⟨store, [], 0⟩ items
        match final.2 with
        | some msg =>
          (Except.error msg, FetchEvent.apiQuery topic :: final.1.trace)
        | none =>
          (Except.ok (final.1.store, final.1.new_articles),
            FetchEvent.apiQuery topic :: final.1.trace)

/-! ## app.py — the rating route -/

/-- Shallow embedding of `get_or_create_user_article(user_id, article_id)`:
find the first row for the pair, or create, add and COMMIT a fresh row
(`action = json.dumps([])`, no rating, no notes). Returns the row and the
resulting store. -/
def get_or_create_user_article (store : List UserArticle)
    (user_id article_id : Nat) (now : Nat) : UserArticle × List UserArticle :=
  match store.find? (fun r => r.user_id == user_id && r.article_id == article_id) with
  | some ua => (ua, store)
  | none =>
    let ua : UserArticle := ⟨user_id, article_id, "[]", none, none, now⟩
    (ua, store ++ [ua])

/-- Python `int(s)` on a string: strip whitespace, optional sign, decimal
digits; anything else raises `ValueError` (`none`).  (Underscore digit
grouping and non-ASCII digits are outside the modelled input domain.) -/
def py_int (s : String) : Option Int :=
  match (py_strip s).data with
  | [] => none
  | c :: cs =>
    let signed : Bool × List Char :=
      if c = '-' then (true, cs)
      else if c = '+' then (false, cs) else (false, c :: cs)
    if signed.2 = [] ∨ ¬ signed.2.all Char.isDigit then none
    else
      let n : Nat := signed.2.foldl (fun acc ch => acc * 10 + (ch.toNat - 48)) 0
      if signed.1 then some (-(n : Int)) else some (n : Int)

/-- `int(request.form.get("rating"))`: an absent field is `None`, and
`int(None)` raises `TypeError`, landing in the same `except` branch. -/
def py_int_of_form : Option String → Option Int
  | none => none
  | some s => py_int s

/-- Mutating `ua.rating` / `ua.timestamp` on the row object returned by
the query: updates the first matching row in the table. -/
def set_rating_first (store : List UserArticle) (user_id article_id : Nat)
    (value : Int) (now : Nat) : List UserArticle :=
  match store with
  | [] => []
  | r :: rs =>
    if r.user_id == user_id && r.article_id == article_id then
      { r with rating := some value, timestamp := now } :: rs
    else r :: set_rating_first rs user_id article_id value now

/-- Shallow embedding of the `rate_article` route body after the 404
check: find-or-create the interaction row (this already commits a fresh
blank row when absent), then parse and clamp the rating; a parse failure
flashes "Invalid rating." and redirects without the rating mutation.
Returns `(new store, flashed_invalid)`. -/
def rate_article (store : List UserArticle) (user_id article_id : Nat)
    (now : Nat) (rating_input : Option String) : List UserArticle × Bool :=
  let store1 := (get_or_create_user_article store user_id article_id now).2
  match py_int_of_form rating_input with
  | none => (store1, true)
  | some r =>
    let rating := max 1 (min 10 r)
    (set_rating_first store1 user_id article_id rating now, false)

/-! ## Helper observations used in statements and proofs -/

/-- Number of `articles` rows with a given URL. -/
def countUrl (store : List Article) (url : String) : Nat :=
  (store.filter (fun r => r.url == url)).length

/-- An item the per-item loop rejects independently of the store: bad
data (falsy title / url) or a failed / too-short / tagged extraction. -/
def item_rejected (env : FetchEnv) (item : NewsItem) : Bool :=
  falsyStr item.title || falsyStr item.url ||
    (match env.extract (item.url.getD "") with
     | none => true
     | some text =>
       text == "" || decide (text.length < 200) ||
         py_startswith text "[Extractor]")

/-- An item the per-item loop will not insert: rejected outright, or its
URL is already present in the store. -/
def item_covered (env : FetchEnv) (store : List Article) (item : NewsItem) : Prop :=
  item_rejected env item = true ∨
    store.any (fun r => r.url == item.url.getD "") = true

/-- The stored rating of the first `user_articles` row for a
(user, article) pair. -/
def rating_of (store : List UserArticle) (user_id article_id : Nat) : Option Int :=
  (store.find? (fun r => r.user_id == user_id && r.article_id == article_id)).bind
    (fun r => r.rating)

/-- Stored articles for the C2 counterexample: the embedding columns hold
the serialised vectors `[3.0, 4.0]`, `[0.0, 0.0]` (non-empty, magnitude
zero) and `[4.0, 3.0]`. -/
def cxArticleA : Article :=
  ⟨"A", "au", "s", "ua", "c", none, 0, "sa", "neutral", some "[3.0, 4.0]"⟩

def cxArticleB : Article :=
  ⟨"B", "au", "s", "ub", "c", none, 0, "sb", "neutral", some "[0.0, 0.0]"⟩

def cxArticleC : Article :=
  ⟨"C", "au", "s", "uc", "c", none, 0, "sc", "neutral", some "[4.0, 3.0]"⟩

/-- The similarity values `compute_similarity` produces when the query
embeds to `"[1.0, 0.0]"` and the stored vector strings are the three
above: cosine `3/5` for `[3.0, 4.0]` and `4/5` for `[4.0, 3.0]` (the
norms `sqrt(25.0) = 5.0` are float-exact), and NaN (`none`) for the
zero-magnitude `[0.0, 0.0]`.  Agreement with `compute_similarity` on the
parsed vectors is proved inside the C2 counterexample theorem. -/
def cxSim : String → String → Option ℚ := fun _ emb =>
  if emb = "[3.0, 4.0]" then some (3/5)
  else if emb = "[4.0, 3.0]" then some (4/5)
  else none

/-! # Theorems -/

/-! ## Arithmetic facts about `dotQ` -/

theorem dotQ_nil_left (w : List ℚ) : dotQ [] w = 0 := rfl

theorem dotQ_nil_right (v : List ℚ) : dotQ v [] = 0 := by
  cases v <;> rfl

theorem dotQ_cons (a b : ℚ) (v w : List ℚ) :
    dotQ (a :: v) (b :: w) = a * b + dotQ v w := by
  simp [dotQ, List.zipWith]

theorem dotQ_self_nonneg (v : List ℚ) : 0 ≤ dotQ v v := by
  induction v with
  | nil => simp [dotQ]
  | cons a v ih =>
    rw [dotQ_cons]
    nlinarith [sq_nonneg a]

/-- Discrete Cauchy–Schwarz for `dotQ`, squared form, by induction on the
two lists. -/
theorem dotQ_sq_le (v w : List ℚ) : dotQ v w ^ 2 ≤ dotQ v v * dotQ w w := by
  induction v generalizing w with
  | nil => simp [dotQ]
  | cons a v ih =>
    cases w with
    | nil => simp [dotQ_nil_right]
    | cons b w =>
      have hA := dotQ_self_nonneg v
      have hB := dotQ_self_nonneg w
      have hd := ih w
      rw [dotQ_cons, dotQ_cons, dotQ_cons]
      rcases eq_or_lt_of_le hB with hB0 | hBpos
      · have hd0 : dotQ v w = 0 := by nlinarith [sq_nonneg (dotQ v w)]
        rw [hd0, ← hB0]
        nlinarith [mul_nonneg hA (sq_nonneg b)]
      · have key : (a * b + dotQ v w) ^ 2 * dotQ w w ≤
            ((a * a + dotQ v v) * (b * b + dotQ w w)) * dotQ w w := by
          nlinarith [sq_nonneg (a * dotQ w w - b * dotQ v w),
            mul_nonneg (add_nonneg (sq_nonneg b) hB) (sub_nonneg.2 hd)]
        exact le_of_mul_le_mul_right key hBpos

/-- Unfolding equation for `compute_similarity` on two parsed vectors. -/
theorem compute_similarity_some_some (v w : List ℚ) :
    compute_similarity (some v) (some w) =
      if v = [] ∨ w = [] then some 0
      else if v.length ≠ w.length then some 0
      else if dotQ v v = 0 ∨ dotQ w w = 0 then none
      else some ((dotQ v w : ℝ) /
        (Real.sqrt (dotQ v v : ℝ) * Real.sqrt (dotQ w w : ℝ))) := rfl

/-! ## C3 — empty-input sentinel and sentinel similarity -/

/-- C3: `generate_embedding` on the empty string or a whitespace-only
string returns the sentinel `"[]"`, and `compute_similarity` with the
(parsed) sentinel on either side returns exactly `0.0`, whatever the
other argument is. -/
theorem generate_embedding_sentinel_and_sentinel_similarity_zero :
    (∀ (encode : String → String) (text : String),
      text = "" ∨ py_strip text = "" → generate_embedding encode text = "[]") ∧
    (∀ X : Option (List ℚ),
      compute_similarity (some []) X = some 0 ∧
      compute_similarity X (some []) = some 0) := by
  constructor
  · intro encode text h
    unfold generate_embedding
    exact if_pos h
  · intro X
    obtain _ | v := X
    · exact ⟨rfl, rfl⟩
    · constructor
      · rw [compute_similarity_some_some]
        exact if_pos (Or.inl rfl)
      · rw [compute_similarity_some_some]
        exact if_pos (Or.inr rfl)

/-- Witness for C3 at concrete inputs. -/
theorem generate_embedding_sentinel_witness :
    generate_embedding (fun s => s) " " = "[]" ∧
    compute_similarity (some [(1 : ℚ), 2]) (some []) = some 0 :=
  ⟨generate_embedding_sentinel_and_sentinel_similarity_zero.1 (fun s => s) " "
      (Or.inr rfl),
    (generate_embedding_sentinel_and_sentinel_similarity_zero.2 (some [1, 2])).2⟩

/-! ## C4 — similarity range and the zero-magnitude case -/

/-- C4 counterexample: on the non-empty all-zeros vector `[0.0]` against
`[1.0]`, the denominator is `0.0` and the division is IEEE
`0.0 / 0.0 = NaN` (modelled `none`): the result is an undefined number,
not the claimed `0.0`. -/
theorem compute_similarity_zero_magnitude_nan :
    compute_similarity (some [0]) (some [1]) = none ∧
    compute_similarity (some [0]) (some [1]) ≠ some 0 := by
  have h : compute_similarity (some [0]) (some [1]) = none := by
    rw [compute_similarity_some_some]
    norm_num [dotQ]
  refine ⟨h, ?_⟩
  rw [h]
  exact fun hc => Option.noConfusion hc

/-- C4 amended: the value of `compute_similarity` lies in `[-1, 1]` in
every case EXCEPT when both inputs parse to non-empty vectors of equal
length and at least one has magnitude zero; there the code produces NaN
(no real value) instead of the claimed `0.0`. -/
theorem compute_similarity_range_amended (X Y : Option (List ℚ)) :
    (∃ r : ℝ, compute_similarity X Y = some r ∧ -1 ≤ r ∧ r ≤ 1) ∨
    (compute_similarity X Y = none ∧ ∃ v w, X = some v ∧ Y = some w ∧
      v ≠ [] ∧ w ≠ [] ∧ v.length = w.length ∧
      (dotQ v v = 0 ∨ dotQ w w = 0)) := by
  obtain _ | v := X
  · exact Or.inl ⟨0, rfl, by norm_num, by norm_num⟩
  obtain _ | w := Y
  · exact Or.inl ⟨0, rfl, by norm_num, by norm_num⟩
  rw [compute_similarity_some_some]
  split_ifs with h1 h2 h3
  · exact Or.inl ⟨0, rfl, by norm_num, by norm_num⟩
  · exact Or.inl ⟨0, rfl, by norm_num, by norm_num⟩
  · refine Or.inr ⟨rfl, v, w, rfl, rfl, ?_, ?_, not_not.1 h2, h3⟩
    · exact fun hv => h1 (Or.inl hv)
    · exact fun hw => h1 (Or.inr hw)
  · rcases not_or.1 h3 with ⟨hv0, hw0⟩
    have hA : (0 : ℚ) < dotQ v v := (dotQ_self_nonneg v).lt_of_ne (Ne.symm hv0)
    have hB : (0 : ℚ) < dotQ w w := (dotQ_self_nonneg w).lt_of_ne (Ne.symm hw0)
    have hAr : (0 : ℝ) < (dotQ v v : ℝ) := by exact_mod_cast hA
    have hBr : (0 : ℝ) < (dotQ w w : ℝ) := by exact_mod_cast hB
    set r : ℝ := (dotQ v w : ℝ) /
      (Real.sqrt (dotQ v v : ℝ) * Real.sqrt (dotQ w w : ℝ)) with hrdef
    have hcs : ((dotQ v w : ℝ)) ^ 2 ≤ (dotQ v v : ℝ) * (dotQ w w : ℝ) := by
      exact_mod_cast dotQ_sq_le v w
    have hden : (Real.sqrt (dotQ v v : ℝ) * Real.sqrt (dotQ w w : ℝ)) ^ 2 =
        (dotQ v v : ℝ) * (dotQ w w : ℝ) := by
      rw [mul_pow, Real.sq_sqrt hAr.le, Real.sq_sqrt hBr.le]
    have hr2 : r ^ 2 ≤ 1 := by
      rw [hrdef, div_pow, hden]
      exact (div_le_one (by positivity)).2 hcs
    refine Or.inl ⟨r, rfl, ?_, ?_⟩
    · nlinarith [hr2, sq_nonneg (r + 1)]
    · nlinarith [hr2, sq_nonneg (r - 1)]

/-! ## C1 — summarizer degradation -/

/-- C1 counterexample: with the OpenAI key missing, `summarize_article`
raises (`Except.error`) instead of returning the degraded string — the
`raise Exception("OpenAI API key not set.")` sits before the `try`
block. -/
theorem summarize_article_missing_key_raises :
    summarize_article none (fun _ => Except.ok "fine") "t" "x" =
      Except.error "OpenAI API key not set." := rfl

/-- C1 amended: when the OpenAI key is PRESENT, `summarize_article` never
raises — any provider failure yields the fixed degraded string
`"Summary unavailable."` — but when the key is missing (None or empty,
both falsy) the function raises an exception instead of degrading. -/
theorem summarize_article_degraded_amended
    (llm : String → Except String String) (title text : String) :
    (∀ (apiKey : Option String) (e : String), falsyStr apiKey = false →
      llm (summarize_prompt title (text.take 6000)) = Except.error e →
      summarize_article apiKey llm title text = Except.ok "Summary unavailable.") ∧
    (∀ apiKey : Option String, falsyStr apiKey = false →
      ∃ s, summarize_article apiKey llm title text = Except.ok s) ∧
    (∀ apiKey : Option String, falsyStr apiKey = true →
      summarize_article apiKey llm title text =
        Except.error "OpenAI API key not set.") := by
  refine ⟨?_, ?_, ?_⟩
  · intro apiKey e hkey hllm
    unfold summarize_article
    rw [hkey]
    simp only [Bool.false_eq_true, if_false, hllm]
  · intro apiKey hkey
    unfold summarize_article
    rw [hkey]
    simp only [Bool.false_eq_true, if_false]
    cases llm (summarize_prompt title (text.take 6000)) with
    | ok raw => exact ⟨postprocess_summary raw, rfl⟩
    | error _ => exact ⟨"Summary unavailable.", rfl⟩
  · intro apiKey hkey
    unfold summarize_article
    rw [hkey]
    simp

/-- Witness for the amended C1 at a concrete failing provider. -/
theorem summarize_article_degraded_amended_witness :
    summarize_article (some "sk") (fun _ => Except.error "boom") "t" "body" =
      Except.ok "Summary unavailable." :=
  (summarize_article_degraded_amended (fun _ => Except.error "boom") "t" "body").1
    (some "sk") "boom" rfl rfl

/-! ## C7 — sentiment label set -/

/-- C7: `analyze_sentiment` always returns one of the three labels; a
provider failure yields `"neutral"`, and a raw answer outside the label
set (after `strip().lower()`) is coerced to `"neutral"`. -/
theorem analyze_sentiment_label_set (llm : String → Except String String)
    (summary_text : String) :
    analyze_sentiment llm summary_text ∈ ["positive", "neutral", "negative"] ∧
    (∀ e, llm (sentiment_prompt summary_text) = Except.error e →
      analyze_sentiment llm summary_text = "neutral") ∧
    (∀ raw, llm (sentiment_prompt summary_text) = Except.ok raw →
      py_lower (py_strip raw) ∉ ["positive", "neutral", "negative"] →
      analyze_sentiment llm summary_text = "neutral") := by
  refine ⟨?_, ?_, ?_⟩
  · unfold analyze_sentiment
    cases llm (sentiment_prompt summary_text) with
    | error e => simp
    | ok raw =>
      by_cases h : py_lower (py_strip raw) ∈ ["positive", "neutral", "negative"]
      · simp [h]
      · simp [h]
  · intro e he
    unfold analyze_sentiment
    rw [he]
  · intro raw hraw hout
    unfold analyze_sentiment
    rw [hraw]
    simp [hout]

/-- Witness for C7: an off-label raw answer is coerced to neutral. -/
theorem analyze_sentiment_label_set_witness :
    analyze_sentiment (fun _ => Except.ok "great") "s" = "neutral" :=
  (analyze_sentiment_label_set (fun _ => Except.ok "great") "s").2.2 "great" rfl
    (by decide)

/-! ## C10 — missing NEWS_API_KEY is a hard failure -/

/-- C10: with `NEWS_API_KEY` absent, `fetch_from_newsapi` raises a
`RuntimeError` before any network activity: the result is the escaping
exception and the event trace is empty (no API query was issued), unlike
every other failure branch, which returns `0`. -/
theorem fetch_from_newsapi_missing_key_raises (env : FetchEnv)
    (http : String → String → Nat → HttpResult) (topic language : String)
    (page_size : Nat) (store : List Article) :
    fetch_from_newsapi env http none topic language page_size store =
      (Except.error "NEWS_API_KEY missing in environment", []) := rfl

/-! ## C6 — transport / API failures yield 0, store untouched -/

/-- C6: with a key configured, a transport-level failure (exception,
timeout, non-success HTTP status — all caught by the `except`) or a
response body whose status is not `"ok"` makes `fetch_from_newsapi`
return 0 newly added articles without raising, and the store is returned
unchanged. -/
theorem fetch_from_newsapi_transport_failure_zero (env : FetchEnv)
    (http : String → String → Nat → HttpResult) (apiKey : Option String)
    (topic language : String) (page_size : Nat) (store : List Article)
    (hkey : falsyStr apiKey = false) :
    (http topic language page_size = HttpResult.failure →
      fetch_from_newsapi env http apiKey topic language page_size store =
        (Except.ok (store, 0), [FetchEvent.apiQuery topic])) ∧
    (∀ status message items,
      http topic language page_size = HttpResult.success status message items →
      status ≠ "ok" →
      fetch_from_newsapi env http apiKey topic language page_size store =
        (Except.ok (store, 0), [FetchEvent.apiQuery topic])) := by
  constructor
  · intro hhttp
    unfold fetch_from_newsapi
    rw [hkey]
    simp only [Bool.false_eq_true, if_false, hhttp]
  · intro status message items hhttp hstatus
    unfold fetch_from_newsapi
    rw [hkey]
    simp only [Bool.false_eq_true, if_false, hhttp]
    rw [if_pos hstatus]

/-- Witness for C6 at a concrete failing transport. -/
theorem fetch_from_newsapi_transport_failure_zero_witness :
    fetch_from_newsapi
        ⟨fun _ => none, fun _ _ => Except.ok "", fun _ => "", fun _ => "", "", 0⟩
        (fun _ _ _ => HttpResult.failure) (some "key") "ai" "en" 5 [] =
      (Except.ok ([], 0), [FetchEvent.apiQuery "ai"]) :=
  (fetch_from_newsapi_transport_failure_zero
    ⟨fun _ => none, fun _ _ => Except.ok "", fun _ => "", fun _ => "", "", 0⟩
    (fun _ _ _ => HttpResult.failure) (some "key") "ai" "en" 5 [] rfl).1 rfl

/-! ## C9 — the chat exchange appends one user/bot pair -/

/-- C9: every `answer_question` call appends exactly two rows to the chat
log in one step — a `"user"` turn then a `"bot"` turn — sharing the single
`datetime.utcnow()` timestamp; the bot message is the returned answer.
(The two `db.session.add` calls are committed by the one
`db.session.commit()`, modelled as the single list append.) -/
theorem answer_question_appends_turn_pair (encode : String → String)
    (sim : String → String → Option ℚ)
    (pysort : List (Option ℚ × Article) → List (Option ℚ × Article))
    (openaiKey geminiKey : Option String)
    (openaiLLM geminiLLM : String → String → Except String String)
    (articles : List Article) (chat_log : List ChatHistory) (user_id : Nat)
    (question provider : String) (top_k now : Nat) :
    ∃ u b : ChatHistory,
      (answer_question encode sim pysort openaiKey geminiKey openaiLLM
          geminiLLM articles chat_log user_id question provider top_k now).2 =
        chat_log ++ [u, b] ∧
      u.role = "user" ∧ b.role = "bot" ∧
      u.timestamp = now ∧ b.timestamp = now ∧
      u.message = "[" ++ provider ++ "] " ++ question ∧
      b.message = (answer_question encode sim pysort openaiKey geminiKey
          openaiLLM geminiLLM articles chat_log user_id question provider
          top_k now).1.1 ∧
      (answer_question encode sim pysort openaiKey geminiKey openaiLLM
          geminiLLM articles chat_log user_id question provider top_k
          now).2.length = chat_log.length + 2 := by
  refine ⟨_, _, rfl, rfl, rfl, rfl, rfl, rfl, rfl, ?_⟩
  simp [answer_question]

/-! ## C2 — retrieval: top-k, positivity filter, descending order -/

/-- `posSim` in terms of the default-0 ordering key: NaN (`none`) and `0`
both fail the strict positivity test. -/
theorem posSim_eq_decide (x : Option ℚ) :
    posSim x = decide (0 < x.getD 0) := by
  cases x with
  | none => simp [posSim]
  | some q => simp [posSim]

/-- Members of the sorted scored list carry the similarity of their own
article (needs only that the sort permutes its input). -/
theorem scored_sorted_fst (sim : String → String → Option ℚ)
    (pysort : List (Option ℚ × Article) → List (Option ℚ × Article))
    (articles : List Article) (query_emb : String)
    (hperm : ∀ l : List (Option ℚ × Article), List.Perm (pysort l) l) :
    ∀ p ∈ scored_sorted sim pysort articles query_emb,
      p.1 = sim query_emb (p.2.embedding.getD "") := by
  intro p hp
  have hp' : p ∈ (((articles.filter (fun a => a.embedding.isSome)).filter
      (fun a => !(a.embedding.getD "" == ""))).map
      (fun a => (sim query_emb (a.embedding.getD ""), a))) :=
    (hperm _).mem_iff.1 hp
  rcases List.mem_map.1 hp' with ⟨a, _, rfl⟩
  rfl

/-- Under the no-NaN hypothesis every key of the raw scored list is a
well-defined float value. -/
theorem scored_list_isSome (sim : String → String → Option ℚ)
    (articles : List Article) (query_emb : String)
    (hclean : ∀ a ∈ articles, a.embedding.isSome = true →
      a.embedding.getD "" ≠ "" →
      (sim query_emb (a.embedding.getD "")).isSome = true) :
    ∀ p ∈ (((articles.filter (fun a => a.embedding.isSome)).filter
        (fun a => !(a.embedding.getD "" == ""))).map
        (fun a => (sim query_emb (a.embedding.getD ""), a))),
      p.1.isSome = true := by
  intro p hp
  rcases List.mem_map.1 hp with ⟨a, ha, rfl⟩
  have ha1 := List.mem_filter.1 ha
  have ha2 := List.mem_filter.1 ha1.1
  exact hclean a ha2.1 ha2.2 (by simpa using ha1.2)

/-- `takeWhile` commutes with `take`. -/
theorem takeWhile_take_comm {α : Type} (P : α → Bool) :
    ∀ (l : List α) (k : Nat), (l.take k).takeWhile P = (l.takeWhile P).take k := by
  intro l
  induction l with
  | nil => intro k; simp
  | cons h t ih =>
    intro k
    cases k with
    | zero => simp
    | succ k =>
      cases hph : P h with
      | true => simp [List.take_succ_cons, List.takeWhile_cons, hph, ih k]
      | false => simp [List.take_succ_cons, List.takeWhile_cons, hph]

/-- On a list sorted descending in `key`, keeping the strictly positive
keys is a prefix operation: `filter` and `takeWhile` agree. -/
theorem filter_pos_eq_takeWhile_of_sorted {α : Type} (key : α → ℚ) :
    ∀ l : List α, l.Pairwise (fun x y => key y ≤ key x) →
      l.filter (fun x => decide (0 < key x)) =
        l.takeWhile (fun x => decide (0 < key x)) := by
  intro l
  induction l with
  | nil => intro _; rfl
  | cons h t ih =>
    intro hl
    rcases List.pairwise_cons.1 hl with ⟨hh, ht⟩
    by_cases hp : 0 < key h
    · simp [List.filter_cons, List.takeWhile_cons, hp, ih ht]
    · have hall : ∀ x ∈ t, ¬ (0 < key x) :=
        fun x hx h0 => hp (lt_of_lt_of_le h0 (hh x hx))
      have hdec : decide (0 < key h) = false := decide_eq_false hp
      simp only [List.filter_cons, List.takeWhile_cons, hdec]
      exact List.filter_eq_nil_iff.2 (fun x hx => by simpa using hall x hx)

/-- C2 amended: PROVIDED every stored article's similarity to the query is
a well-defined float (no NaN — in particular no stored non-empty
zero-magnitude embedding), `retrieve_relevant_articles` returns at most
`top_k` articles, all with strictly positive similarity to the query
embedding, in descending order of similarity; the result coincides with
filtering out non-positive similarities before truncating to `top_k`; and
a sentinel query embedding yields the empty list.  `pysort` is
constrained exactly by CPython's documented sort guarantees: it permutes
its input, and it sorts descending when every key is well defined
(`hsorted` is vacuous on NaN-carrying lists, where the order is
unspecified — see the counterexample). -/
theorem retrieve_relevant_articles_spec (encode : String → String)
    (sim : String → String → Option ℚ)
    (pysort : List (Option ℚ × Article) → List (Option ℚ × Article))
    (articles : List Article) (query : String) (top_k : Nat)
    (hperm : ∀ l : List (Option ℚ × Article), List.Perm (pysort l) l)
    (hsorted : ∀ l : List (Option ℚ × Article),
      (∀ p ∈ l, p.1.isSome = true) →
      (pysort l).Pairwise (fun p q => q.1.getD 0 ≤ p.1.getD 0))
    (hclean : ∀ a ∈ articles, a.embedding.isSome = true →
      a.embedding.getD "" ≠ "" →
      (sim (generate_embedding encode query)
        (a.embedding.getD "")).isSome = true) :
    (retrieve_relevant_articles encode sim pysort articles query
      top_k).length ≤ top_k ∧
    (∀ a ∈ retrieve_relevant_articles encode sim pysort articles query top_k,
      0 < (sim (generate_embedding encode query)
        (a.embedding.getD "")).getD 0) ∧
    (retrieve_relevant_articles encode sim pysort articles query
      top_k).Pairwise
      (fun a b =>
        (sim (generate_embedding encode query) (b.embedding.getD "")).getD 0 ≤
        (sim (generate_embedding encode query) (a.embedding.getD "")).getD 0) ∧
    (generate_embedding encode query = "[]" →
      retrieve_relevant_articles encode sim pysort articles query top_k = []) ∧
    (generate_embedding encode query ≠ "" →
      generate_embedding encode query ≠ "[]" →
      retrieve_relevant_articles encode sim pysort articles query top_k =
        (((scored_sorted sim pysort articles
          (generate_embedding encode query)).filter
          (fun p => posSim p.1)).take top_k).map (fun p => p.2)) := by
  have hfunP : (fun p : Option ℚ × Article => posSim p.1) =
      (fun p : Option ℚ × Article => decide (0 < p.1.getD 0)) :=
    funext (fun p => posSim_eq_decide p.1)
  by_cases hq : generate_embedding encode query = "" ∨
      generate_embedding encode query = "[]"
  · have hres : retrieve_relevant_articles encode sim pysort articles query
        top_k = [] := by
      unfold retrieve_relevant_articles
      exact if_pos hq
    refine ⟨by simp [hres], by simp [hres], by simp [hres], fun _ => hres,
      fun h1 h2 => ?_⟩
    rcases hq with h | h
    exacts [absurd h h1, absurd h h2]
  · have hres : retrieve_relevant_articles encode sim pysort articles query
        top_k =
        (((scored_sorted sim pysort articles
          (generate_embedding encode query)).take
          top_k).filter (fun p => posSim p.1)).map (fun p => p.2) := by
      unfold retrieve_relevant_articles
      exact if_neg hq
    have hsortedS : (scored_sorted sim pysort articles
        (generate_embedding encode query)).Pairwise
        (fun x y : Option ℚ × Article => y.1.getD 0 ≤ x.1.getD 0) :=
      hsorted _ (scored_list_isSome sim articles
        (generate_embedding encode query) hclean)
    have hfst := scored_sorted_fst sim pysort articles
      (generate_embedding encode query) hperm
    have hsortedT : ((scored_sorted sim pysort articles
        (generate_embedding encode query)).take top_k).Pairwise
        (fun x y : Option ℚ × Article => y.1.getD 0 ≤ x.1.getD 0) :=
      List.Pairwise.sublist (List.take_sublist _ _) hsortedS
    have hmemS : ∀ p : Option ℚ × Article,
        p ∈ ((scored_sorted sim pysort articles
          (generate_embedding encode query)).take top_k).filter
            (fun p => posSim p.1) →
        p ∈ scored_sorted sim pysort articles
          (generate_embedding encode query) :=
      fun p hp => List.mem_of_mem_take (List.mem_filter.1 hp).1
    refine ⟨?_, ?_, ?_, fun h => absurd (Or.inr h) hq, fun _ _ => ?_⟩
    · rw [hres, List.length_map]
      exact le_trans (List.length_filter_le _ _) (List.length_take_le _ _)
    · intro a ha
      rw [hres] at ha
      rcases List.mem_map.1 ha with ⟨p, hp, rfl⟩
      have h1 : posSim p.1 = true := (List.mem_filter.1 hp).2
      rw [posSim_eq_decide] at h1
      have h1' : 0 < p.1.getD 0 := of_decide_eq_true h1
      have h2 := hfst p (hmemS p hp)
      exact h2 ▸ h1'
    · rw [hres, List.pairwise_map]
      refine List.Pairwise.imp_of_mem ?_ (List.Pairwise.filter _ hsortedT)
      intro x y hx hy hxy
      have h1 := hfst x (hmemS x hx)
      have h2 := hfst y (hmemS y hy)
      exact h1 ▸ h2 ▸ hxy
    · rw [hres]
      congr 1
      rw [hfunP]
      calc ((scored_sorted sim pysort articles
            (generate_embedding encode query)).take top_k).filter
              (fun p => decide (0 < p.1.getD 0))
          = ((scored_sorted sim pysort articles
              (generate_embedding encode query)).take top_k).takeWhile
                (fun p => decide (0 < p.1.getD 0)) :=
            filter_pos_eq_takeWhile_of_sorted
              (fun p : Option ℚ × Article => p.1.getD 0) _ hsortedT
        _ = ((scored_sorted sim pysort articles
              (generate_embedding encode query)).takeWhile
                (fun p => decide (0 < p.1.getD 0))).take top_k :=
            takeWhile_take_comm _ _ _
        _ = ((scored_sorted sim pysort articles
              (generate_embedding encode query)).filter
                (fun p => decide (0 < p.1.getD 0))).take top_k := by
            rw [filter_pos_eq_takeWhile_of_sorted
              (fun p : Option ℚ × Article => p.1.getD 0) _ hsortedS]

/-- Witness for the amended C2: a stable descending mergeSort satisfies
CPython's sort guarantees, the no-NaN hypothesis is discharged on
concrete stores, and the sentinel and top-k clauses are evaluated. -/
theorem retrieve_relevant_articles_spec_witness :
    retrieve_relevant_articles (fun _ => "[]") (fun _ _ => some 0)
      (fun l => l.mergeSort (fun x y => decide (y.1.getD 0 ≤ x.1.getD 0)))
      [] "q" 3 = [] ∧
    (retrieve_relevant_articles (fun _ => "E") (fun _ _ => some 1)
      (fun l => l.mergeSort (fun x y => decide (y.1.getD 0 ≤ x.1.getD 0)))
      [⟨"T", "Au", "S", "u", "c", none, 0, "sum", "neutral", some "[0.5]"⟩]
      "q" 3).length ≤ 3 := by
  have hperm : ∀ l : List (Option ℚ × Article),
      List.Perm (l.mergeSort (fun x y => decide (y.1.getD 0 ≤ x.1.getD 0))) l :=
    fun l => List.mergeSort_perm l _
  have hsorted : ∀ l : List (Option ℚ × Article),
      (∀ p ∈ l, p.1.isSome = true) →
      (l.mergeSort (fun x y => decide (y.1.getD 0 ≤ x.1.getD 0))).Pairwise
        (fun p q => q.1.getD 0 ≤ p.1.getD 0) := by
    intro l _
    have h := @List.sorted_mergeSort (Option ℚ × Article)
      (fun x y => decide (y.1.getD 0 ≤ x.1.getD 0))
      (fun a b c hab hbc => by
        simp only [decide_eq_true_eq] at hab hbc ⊢
        exact le_trans hbc hab)
      (fun a b => by
        simp only [Bool.or_eq_true, decide_eq_true_eq]
        exact le_total (b.1.getD 0) (a.1.getD 0))
      l
    exact h.imp (fun hab => of_decide_eq_true hab)
  constructor
  · exact (retrieve_relevant_articles_spec (fun _ => "[]") (fun _ _ => some 0)
      (fun l => l.mergeSort (fun x y => decide (y.1.getD 0 ≤ x.1.getD 0)))
      [] "q" 3 hperm hsorted (by simp)).2.2.2.1 (by decide)
  · exact (retrieve_relevant_articles_spec (fun _ => "E") (fun _ _ => some 1)
      (fun l => l.mergeSort (fun x y => decide (y.1.getD 0 ≤ x.1.getD 0)))
      [⟨"T", "Au", "S", "u", "c", none, 0, "sum", "neutral", some "[0.5]"⟩]
      "q" 3 hperm hsorted (fun a _ _ _ => rfl)).1

/-- C2 counterexample.  The store `[cxArticleA, cxArticleB, cxArticleC]`
holds for `cxArticleB` the non-empty zero vector `"[0.0, 0.0]"`: against
the query embedding `"[1.0, 0.0]"` the code's `compute_similarity`
produces NaN (first conjunct, on the parsed vectors), while `cxArticleA`
(`"[3.0, 4.0]"`) and `cxArticleC` (`"[4.0, 3.0]"`) score `3/5` and `4/5`
(conjuncts two and three; `sqrt(25.0) = 5.0` is float-exact).

CPython's `list.sort(key=lambda x: x[0], reverse=True)` on the scored
list `[(3/5, A), (nan, B), (4/5, C)]` first reverses it to
`[(4/5, C), (nan, B), (3/5, A)]`, then its ascending-run detection
compares `nan < 4/5` (False on floats) and `3/5 < nan` (False), so the
whole reversed list counts as one non-descending run, the sort terminates
without moving anything, and the final reversal restores the input order:
the sort is the identity on this input, hence `pysort := fun l => l`.

The retrieval then violates the original claim: at `top_k = 3` it returns
`[cxArticleA, cxArticleC]` whose similarities `3/5 < 4/5` are ASCENDING
(conjuncts four and five), and at `top_k = 2` it returns `[cxArticleA]`
although filtering non-positive similarities BEFORE truncating yields
`[cxArticleA, cxArticleC]` (conjuncts six to eight). -/
theorem retrieve_relevant_articles_nan_counterexample :
    compute_similarity (some [1, 0]) (some [0, 0]) = none ∧
    compute_similarity (some [1, 0]) (some [3, 4]) = some ((3 : ℝ)/5) ∧
    compute_similarity (some [1, 0]) (some [4, 3]) = some ((4 : ℝ)/5) ∧
    retrieve_relevant_articles (fun _ => "[1.0, 0.0]") cxSim (fun l => l)
      [cxArticleA, cxArticleB, cxArticleC] "q" 3 =
      [cxArticleA, cxArticleC] ∧
    ¬ ((4 : ℚ)/5 ≤ 3/5) ∧
    retrieve_relevant_articles (fun _ => "[1.0, 0.0]") cxSim (fun l => l)
      [cxArticleA, cxArticleB, cxArticleC] "q" 2 = [cxArticleA] ∧
    (((scored_sorted cxSim (fun l => l) [cxArticleA, cxArticleB, cxArticleC]
        "[1.0, 0.0]").filter (fun p => posSim p.1)).take 2).map
      (fun p => p.2) = [cxArticleA, cxArticleC] ∧
    [cxArticleA] ≠ [cxArticleA, cxArticleC] := by
  have hsqrt : Real.sqrt ((25 : ℚ) : ℝ) = 5 := by
    rw [show ((25 : ℚ) : ℝ) = (5 : ℝ) ^ 2 by norm_num]
    exact Real.sqrt_sq (by norm_num)
  have hd1 : dotQ [1, 0] [1, 0] = 1 := by norm_num [dotQ]
  have hA : posSim (some ((3 : ℚ)/5)) = true := by
    simp only [posSim, decide_eq_true_eq]
    norm_num
  have hC : posSim (some ((4 : ℚ)/5)) = true := by
    simp only [posSim, decide_eq_true_eq]
    norm_num
  have hB : posSim (none : Option ℚ) = false := rfl
  have hscored : scored_sorted cxSim (fun l => l)
      [cxArticleA, cxArticleB, cxArticleC] "[1.0, 0.0]" =
      [(some ((3 : ℚ)/5), cxArticleA), (none, cxArticleB),
       (some ((4 : ℚ)/5), cxArticleC)] := by
    simp [scored_sorted, cxSim, cxArticleA, cxArticleB, cxArticleC]
  have hqe : generate_embedding (fun _ => "[1.0, 0.0]") "q" = "[1.0, 0.0]" := by
    decide
  refine ⟨?_, ?_, ?_, ?_, by norm_num, ?_, ?_, by simp [cxArticleA, cxArticleC]⟩
  · rw [compute_similarity_some_some, if_neg (by simp), if_neg (by simp),
      if_pos (Or.inr (by norm_num [dotQ]))]
  · rw [compute_similarity_some_some]
    rw [if_neg (by simp), if_neg (by simp),
      if_neg (by norm_num [dotQ]),
      show dotQ [1, 0] [3, 4] = 3 by norm_num [dotQ], hd1,
      show dotQ [3, 4] [3, 4] = 25 by norm_num [dotQ], hsqrt]
    norm_num
  · rw [compute_similarity_some_some]
    rw [if_neg (by simp), if_neg (by simp),
      if_neg (by norm_num [dotQ]),
      show dotQ [1, 0] [4, 3] = 4 by norm_num [dotQ], hd1,
      show dotQ [4, 3] [4, 3] = 25 by norm_num [dotQ], hsqrt]
    norm_num
  · unfold retrieve_relevant_articles
    rw [if_neg (by decide), hqe, hscored]
    simp [hA, hB, hC]
  · unfold retrieve_relevant_articles
    rw [if_neg (by decide), hqe, hscored]
    simp [hA, hB, hC]
  · rw [hscored]
    simp [hA, hB, hC]

/-! ## C5 — URL deduplication before enrichment -/

/-- Case summary of one loop iteration: the store only grows by rows
carrying the item's own URL, the new trace events are all tagged with the
item's URL, a duplicate URL short-circuits before ANY event, a covered
item changes nothing (no insertion, no exception, no counter bump), an
insertion only happens when the URL was absent, and after an
exception-free iteration the item is covered. -/
theorem process_item_master (env : FetchEnv) (topic : String) (st : RunState)
    (item : NewsItem) :
    ∃ tl evs,
      (process_item env topic st item).1.store = st.store ++ tl ∧
      (process_item env topic st item).1.trace = st.trace ++ evs ∧
      (∀ e ∈ evs, e.itemUrl = some (item.url.getD "")) ∧
      (∀ r ∈ tl, r.url = item.url.getD "") ∧
      (st.store.any (fun r => r.url == item.url.getD "") = true →
        tl = [] ∧ evs = []) ∧
      (item_covered env st.store item →
        tl = [] ∧ (process_item env topic st item).2 = none ∧
        (process_item env topic st item).1.new_articles = st.new_articles) ∧
      (tl ≠ [] → st.store.any (fun r => r.url == item.url.getD "") = false) ∧
      ((process_item env topic st item).2 = none →
        item_covered env (process_item env topic st item).1.store item) := by
  by_cases h1 : falsyStr item.title = true ∨ falsyStr item.url = true
  · have hpi : process_item env topic st item = (st, none) := by
      simp only [process_item]
      rw [if_pos h1]
    refine ⟨[], [], by simp [hpi], by simp [hpi], by simp, by simp,
      fun _ => ⟨rfl, rfl⟩,
      fun _ => ⟨rfl, by simp [hpi], by simp [hpi]⟩, by simp, ?_⟩
    intro _
    rw [hpi]
    rcases h1 with h | h
    · exact Or.inl (by simp [item_rejected, h])
    · exact Or.inl (by simp [item_rejected, h])
  · by_cases h2 : st.store.any (fun r => r.url == item.url.getD "") = true
    · have hpi : process_item env topic st item = (st, none) := by
        simp only [process_item]
        rw [if_neg h1, if_pos h2]
      refine ⟨[], [], by simp [hpi], by simp [hpi], by simp, by simp,
        fun _ => ⟨rfl, rfl⟩,
        fun _ => ⟨rfl, by simp [hpi], by simp [hpi]⟩, by simp, ?_⟩
      intro _
      rw [hpi]
      exact Or.inr h2
    · rcases hex : env.extract (item.url.getD "") with _ | text
      · have hpi : process_item env topic st item =
            ({ st with trace := st.trace ++
              [FetchEvent.extractCall (item.url.getD "")] }, none) := by
          simp only [process_item]
          rw [if_neg h1, if_neg h2, hex]
        refine ⟨[], [FetchEvent.extractCall (item.url.getD "")],
          by simp [hpi], by simp [hpi], ?_, by simp,
          fun hdup => absurd hdup h2,
          fun _ => ⟨rfl, by simp [hpi], by simp [hpi]⟩, by simp, ?_⟩
        · intro e he
          rw [List.mem_singleton.1 he]
          rfl
        · intro _
          rw [hpi]
          exact Or.inl (by simp [item_rejected, hex])
      · by_cases h4 : text = "" ∨ text.length < 200 ∨
            py_startswith text "[Extractor]" = true
        · have hpi : process_item env topic st item =
              ({ st with trace := st.trace ++
                [FetchEvent.extractCall (item.url.getD "")] }, none) := by
            simp only [process_item]
            rw [if_neg h1, if_neg h2, hex]
            simp only [if_pos h4]
          refine ⟨[], [FetchEvent.extractCall (item.url.getD "")],
            by simp [hpi], by simp [hpi], ?_, by simp,
            fun hdup => absurd hdup h2,
            fun _ => ⟨rfl, by simp [hpi], by simp [hpi]⟩, by simp, ?_⟩
          · intro e he
            rw [List.mem_singleton.1 he]
            rfl
          · intro _
            rw [hpi]
            refine Or.inl ?_
            rcases h4 with h | h | h
            · simp [item_rejected, hex, h]
            · simp [item_rejected, hex, h]
            · simp [item_rejected, hex, h]
        · have hrejF : item_rejected env item = false := by
            push_neg at h1 h4
            simp [item_rejected, hex, h1.1, h1.2, h4.1,
              Nat.not_lt.2 h4.2.1, h4.2.2]
          rcases hsum : env.summarize (item.title.getD "")
              (text.take 5000) with msg | summary
          · have hpi : process_item env topic st item =
                ({ st with trace := (st.trace ++
                    [FetchEvent.extractCall (item.url.getD "")]) ++
                  [FetchEvent.summarizeCall (item.url.getD "")] },
                  some msg) := by
              simp only [process_item]
              rw [if_neg h1, if_neg h2, hex]
              simp only [if_neg h4, hsum]
            refine ⟨[], [FetchEvent.extractCall (item.url.getD ""),
                FetchEvent.summarizeCall (item.url.getD "")],
              by simp [hpi], by simp [hpi], ?_, by simp,
              fun hdup => absurd hdup h2, ?_, by simp, ?_⟩
            · intro e he
              fin_cases he <;> rfl
            · intro hcov
              rcases hcov with hrej | hdup
              · rw [hrejF] at hrej
                cases hrej
              · exact absurd hdup h2
            · intro hnone
              rw [hpi] at hnone
              exact Option.noConfusion hnone
          · have hpi : process_item env topic st item =
                (⟨st.store ++
                    [⟨(item.title.getD "").take 500,
                      (if falsyStr item.author then "Unknown"
                        else item.author.getD "").take 100,
                      item.source.take 200,
                      item.url.getD "", topic,
                      some (if falsyStr item.publishedAt
                        then env.nowPub else item.publishedAt.getD ""),
                      env.nowFetched,
                      summary,
                      env.sentiment summary,
                      some (env.embed
                        (py_strip (item.title.getD "") ++ "\n\n" ++
                         py_strip summary))⟩],
                  (st.trace ++
                      [FetchEvent.extractCall (item.url.getD "")]) ++
                    [FetchEvent.summarizeCall (item.url.getD ""),
                     FetchEvent.sentimentCall (item.url.getD ""),
                     FetchEvent.embedCall (item.url.getD ""),
                     FetchEvent.insertRow (item.url.getD "")],
                  st.new_articles + 1⟩, none) := by
              simp only [process_item]
              rw [if_neg h1, if_neg h2, hex]
              simp only [if_neg h4, hsum]
            refine ⟨_, [FetchEvent.extractCall (item.url.getD ""),
                FetchEvent.summarizeCall (item.url.getD ""),
                FetchEvent.sentimentCall (item.url.getD ""),
                FetchEvent.embedCall (item.url.getD ""),
                FetchEvent.insertRow (item.url.getD "")],
              by rw [hpi], by rw [hpi]; simp, ?_, ?_, ?_, ?_, ?_, ?_⟩
            · intro e he
              fin_cases he <;> rfl
            · intro r hr
              rw [List.mem_singleton.1 hr]
            · intro hdup
              exact absurd hdup h2
            · intro hcov
              rcases hcov with hrej | hdup
              · rw [hrejF] at hrej
                cases hrej
              · exact absurd hdup h2
            · intro _
              simpa using h2
            · intro _
              rw [hpi]
              refine Or.inr ?_
              simp [List.any_append]

/-- `run_items` on the empty batch. -/
theorem run_items_nil (env : FetchEnv) (topic : String) (st : RunState) :
    run_items env topic st [] = (st, none) := rfl

/-- `run_items` unfolding on a cons whose head raises no exception. -/
theorem run_items_cons_ok (env : FetchEnv) (topic : String) (st : RunState)
    (it : NewsItem) (its : List NewsItem)
    (h : (process_item env topic st it).2 = none) :
    run_items env topic st (it :: its) =
      run_items env topic (process_item env topic st it).1 its := by
  rcases hp : process_item env topic st it with ⟨st1, exc⟩
  cases exc with
  | none => simp only [run_items, hp]
  | some msg =>
    rw [hp] at h
    exact Option.noConfusion h

/-- `run_items` unfolding on a cons whose head raises: the loop aborts. -/
theorem run_items_cons_err (env : FetchEnv) (topic : String) (st : RunState)
    (it : NewsItem) (its : List NewsItem) (msg : String)
    (h : (process_item env topic st it).2 = some msg) :
    run_items env topic st (it :: its) =
      ((process_item env topic st it).1, some msg) := by
  rcases hp : process_item env topic st it with ⟨st1, exc⟩
  cases exc with
  | none =>
    rw [hp] at h
    exact Option.noConfusion h
  | some m =>
    rw [hp] at h
    have : m = msg := Option.some.inj h
    subst this
    simp only [run_items, hp]

/-- The store only ever grows across a run, aborted or not. -/
theorem run_items_store_append (env : FetchEnv) (topic : String)
    (items : List NewsItem) :
    ∀ st : RunState, ∃ tl,
      (run_items env topic st items).1.store = st.store ++ tl := by
  induction items with
  | nil => exact fun st => ⟨[], by simp [run_items_nil]⟩
  | cons it its ih =>
    intro st
    obtain ⟨tl1, evs1, hstore1, -⟩ := process_item_master env topic st it
    rcases hexc : (process_item env topic st it).2 with _ | msg
    · obtain ⟨tl2, h2⟩ := ih (process_item env topic st it).1
      exact ⟨tl1 ++ tl2, by
        rw [run_items_cons_ok env topic st it its hexc, h2, hstore1,
          List.append_assoc]⟩
    · exact ⟨tl1, by rw [run_items_cons_err env topic st it its msg hexc]
                     exact hstore1⟩

/-- Coverage is monotone in the store. -/
theorem item_covered_mono (env : FetchEnv) (store tl : List Article)
    (item : NewsItem) (h : item_covered env store item) :
    item_covered env (store ++ tl) item := by
  rcases h with h | h
  · exact Or.inl h
  · exact Or.inr (by simp [List.any_append, h])

/-- One iteration starting from a store that already holds `url` produces
no event tagged with `url` beyond the initial trace. -/
theorem process_item_trace_fresh (env : FetchEnv) (topic : String)
    (st : RunState) (item : NewsItem) (url : String)
    (hany : st.store.any (fun r => r.url == url) = true) :
    ∀ e ∈ (process_item env topic st item).1.trace,
      e ∈ st.trace ∨ e.itemUrl ≠ some url := by
  obtain ⟨tl, evs, hstore, htrace, hevs, htl, hdup, hcov, hfresh, hafter⟩ :=
    process_item_master env topic st item
  intro e he
  rw [htrace] at he
  rcases List.mem_append.1 he with h | h
  · exact Or.inl h
  · by_cases hu : item.url.getD "" = url
    · have hz := hdup (by rw [hu]; exact hany)
      rw [hz.2] at h
      cases h
    · right
      rw [hevs e h]
      exact fun hc => hu (Option.some.inj hc)

/-- Number of rows carrying `url` across an append. -/
theorem countUrl_append (l1 l2 : List Article) (url : String) :
    countUrl (l1 ++ l2) url = countUrl l1 url + countUrl l2 url := by
  simp [countUrl, List.filter_append]

/-- One iteration starting from a store that already holds `url` does not
change the number of rows carrying `url`. -/
theorem process_item_countUrl (env : FetchEnv) (topic : String)
    (st : RunState) (item : NewsItem) (url : String)
    (hany : st.store.any (fun r => r.url == url) = true) :
    countUrl (process_item env topic st item).1.store url =
      countUrl st.store url := by
  obtain ⟨tl, evs, hstore, htrace, hevs, htl, hdup, hcov, hfresh, hafter⟩ :=
    process_item_master env topic st item
  rw [hstore, countUrl_append]
  cases tl with
  | nil => simp [countUrl]
  | cons r rs =>
    have hnodup := hfresh (by simp)
    have hne : item.url.getD "" ≠ url := by
      intro hu
      rw [hu] at hnodup
      rw [hnodup] at hany
      cases hany
    have hzero : countUrl (r :: rs) url = 0 := by
      simp only [countUrl, List.length_eq_zero]
      refine List.filter_eq_nil_iff.2 ?_
      intro x hx
      rw [htl x hx]
      simp [hne]
    rw [hzero]
    omega

/-- A run starting from a store that already holds `url` produces no
event tagged with `url` beyond the initial trace, aborted or not. -/
theorem run_items_trace_fresh (env : FetchEnv) (topic url : String)
    (items : List NewsItem) :
    ∀ st : RunState, st.store.any (fun r => r.url == url) = true →
      ∀ e ∈ (run_items env topic st items).1.trace,
        e ∈ st.trace ∨ e.itemUrl ≠ some url := by
  induction items with
  | nil => intro st _ e he; exact Or.inl he
  | cons a its ih =>
    intro st hany e he
    obtain ⟨tl, evs, hstore, -⟩ := process_item_master env topic st a
    have hany' : (process_item env topic st a).1.store.any
        (fun r => r.url == url) = true := by
      rw [hstore]; simp [List.any_append, hany]
    rcases hexc : (process_item env topic st a).2 with _ | msg
    · rw [run_items_cons_ok env topic st a its hexc] at he
      rcases ih (process_item env topic st a).1 hany' e he with hin | hne
      · exact process_item_trace_fresh env topic st a url hany e hin
      · exact Or.inr hne
    · rw [run_items_cons_err env topic st a its msg hexc] at he
      exact process_item_trace_fresh env topic st a url hany e he

/-- A run starting from a store that already holds `url` never changes the
number of rows carrying `url`, aborted or not. -/
theorem run_items_countUrl (env : FetchEnv) (topic url : String)
    (items : List NewsItem) :
    ∀ st : RunState, st.store.any (fun r => r.url == url) = true →
      countUrl (run_items env topic st items).1.store url =
        countUrl st.store url := by
  induction items with
  | nil => intro st _; rfl
  | cons a its ih =>
    intro st hany
    obtain ⟨tl, evs, hstore, -⟩ := process_item_master env topic st a
    have hany' : (process_item env topic st a).1.store.any
        (fun r => r.url == url) = true := by
      rw [hstore]; simp [List.any_append, hany]
    rcases hexc : (process_item env topic st a).2 with _ | msg
    · rw [run_items_cons_ok env topic st a its hexc, ih _ hany']
      exact process_item_countUrl env topic st a url hany
    · rw [run_items_cons_err env topic st a its msg hexc]
      exact process_item_countUrl env topic st a url hany

/-- After an exception-free run, every item of the batch is covered by the
final store. -/
theorem run_items_covers (env : FetchEnv) (topic : String)
    (items : List NewsItem) :
    ∀ st : RunState, (run_items env topic st items).2 = none →
      ∀ it ∈ items, item_covered env (run_items env topic st items).1.store it := by
  induction items with
  | nil => intro st _ it hit; simp at hit
  | cons a its ih =>
    intro st hok it hit
    rcases hexc : (process_item env topic st a).2 with _ | msg
    · rw [run_items_cons_ok env topic st a its hexc] at hok ⊢
      rcases List.mem_cons.1 hit with rfl | hmem
      · obtain ⟨tl, evs, hstore, htrace, hevs, htl, hdup, hcov, hfresh,
          hafter⟩ := process_item_master env topic st it
        obtain ⟨tl2, hstore2⟩ :=
          run_items_store_append env topic its (process_item env topic st it).1
        rw [hstore2]
        exact item_covered_mono env _ tl2 it (hafter hexc)
      · exact ih (process_item env topic st a).1 hok it hmem
    · rw [run_items_cons_err env topic st a its msg hexc] at hok
      exact Option.noConfusion hok

/-- A batch of covered items changes nothing: same store, same counter,
no exception. -/
theorem run_items_all_covered (env : FetchEnv) (topic : String)
    (items : List NewsItem) :
    ∀ st : RunState, (∀ it ∈ items, item_covered env st.store it) →
      (run_items env topic st items).1.store = st.store ∧
      (run_items env topic st items).1.new_articles = st.new_articles ∧
      (run_items env topic st items).2 = none := by
  induction items with
  | nil => intro st _; exact ⟨rfl, rfl, rfl⟩
  | cons a its ih =>
    intro st hcov
    obtain ⟨tl, evs, hstore, htrace, hevs, htl, hdup, hcovd, hfresh,
      hafter⟩ := process_item_master env topic st a
    obtain ⟨htl0, hexc, hcnt⟩ := hcovd (hcov a (List.mem_cons_self _ _))
    have hstore0 : (process_item env topic st a).1.store = st.store := by
      rw [hstore, htl0, List.append_nil]
    rw [run_items_cons_ok env topic st a its hexc]
    have hrest : ∀ it ∈ its,
        item_covered env (process_item env topic st a).1.store it := by
      intro it hit
      rw [hstore0]
      exact hcov it (List.mem_cons_of_mem _ hit)
    obtain ⟨h1, h2, h3⟩ := ih (process_item env topic st a).1 hrest
    exact ⟨by rw [h1, hstore0], by rw [h2, hcnt], h3⟩

/-- Branch equation: missing key. -/
theorem fetch_eq_missing_key (env : FetchEnv)
    (http : String → String → Nat → HttpResult) (apiKey : Option String)
    (topic language : String) (page_size : Nat) (store : List Article)
    (hkey : falsyStr apiKey = true) :
    fetch_from_newsapi env http apiKey topic language page_size store =
      (Except.error "NEWS_API_KEY missing in environment", []) := by
  simp only [fetch_from_newsapi]
  rw [if_pos hkey]

/-- Branch equation: transport failure. -/
theorem fetch_eq_transport_failure (env : FetchEnv)
    (http : String → String → Nat → HttpResult) (apiKey : Option String)
    (topic language : String) (page_size : Nat) (store : List Article)
    (hkey : falsyStr apiKey = false)
    (hhttp : http topic language page_size = HttpResult.failure) :
    fetch_from_newsapi env http apiKey topic language page_size store =
      (Except.ok (store, 0), [FetchEvent.apiQuery topic]) := by
  simp only [fetch_from_newsapi]
  rw [if_neg (by simp [hkey])]
  simp only [hhttp]

/-- Branch equation: API body status other than `"ok"`. -/
theorem fetch_eq_bad_status (env : FetchEnv)
    (http : String → String → Nat → HttpResult) (apiKey : Option String)
    (topic language : String) (page_size : Nat) (store : List Article)
    (hkey : falsyStr apiKey = false) (status : String)
    (message : Option String) (items : List NewsItem)
    (hhttp : http topic language page_size =
      HttpResult.success status message items)
    (hst : status ≠ "ok") :
    fetch_from_newsapi env http apiKey topic language page_size store =
      (Except.ok (store, 0), [FetchEvent.apiQuery topic]) := by
  simp only [fetch_from_newsapi]
  rw [if_neg (by simp [hkey])]
  simp only [hhttp]
  rw [if_pos hst]

/-- Branch equation: the successful path when the per-item loop finishes
without an exception. -/
theorem fetch_eq_ok_none (env : FetchEnv)
    (http : String → String → Nat → HttpResult) (apiKey : Option String)
    (topic language : String) (page_size : Nat) (store : List Article)
    (hkey : falsyStr apiKey = false) (message : Option String)
    (items : List NewsItem)
    (hhttp : http topic language page_size =
      HttpResult.success "ok" message items)
    (hrun : (run_items env topic ⟨store, [], 0⟩ items).2 = none) :
    fetch_from_newsapi env http apiKey topic language page_size store =
      (Except.ok ((run_items env topic ⟨store, [], 0⟩ items).1.store,
        (run_items env topic ⟨store, [], 0⟩ items).1.new_articles),
       FetchEvent.apiQuery topic ::
         (run_items env topic ⟨store, [], 0⟩ items).1.trace) := by
  simp only [fetch_from_newsapi]
  rw [if_neg (by simp [hkey])]
  simp only [hhttp]
  rw [if_neg (by simp)]
  simp only [hrun]

/-- Branch equation: the successful path when the per-item loop raises —
the exception escapes `fetch_from_newsapi`. -/
theorem fetch_eq_ok_some (env : FetchEnv)
    (http : String → String → Nat → HttpResult) (apiKey : Option String)
    (topic language : String) (page_size : Nat) (store : List Article)
    (hkey : falsyStr apiKey = false) (message : Option String)
    (items : List NewsItem) (msg : String)
    (hhttp : http topic language page_size =
      HttpResult.success "ok" message items)
    (hrun : (run_items env topic ⟨store, [], 0⟩ items).2 = some msg) :
    fetch_from_newsapi env http apiKey topic language page_size store =
      (Except.error msg,
       FetchEvent.apiQuery topic ::
         (run_items env topic ⟨store, [], 0⟩ items).1.trace) := by
  simp only [fetch_from_newsapi]
  rw [if_neg (by simp [hkey])]
  simp only [hhttp]
  rw [if_neg (by simp)]
  simp only [hrun]

/-- C5 amended: if an Article record with `url` already exists, an
ingestion run — completed or aborted by an enrichment exception — never
re-invokes extraction, summarization, sentiment classification, embedding
or insertion for that URL (no trace event tagged `url`) and never creates
a second record with that URL; and whenever a run completes normally
(returns a count rather than raising), immediately re-running the same
ingestion returns 0 with the store unchanged. -/
theorem fetch_from_newsapi_dedup (env : FetchEnv)
    (http : String → String → Nat → HttpResult) (apiKey : Option String)
    (topic language : String) (page_size : Nat) (store : List Article)
    (url : String)
    (hurl : store.any (fun r => r.url == url) = true) :
    (fetch_from_newsapi env http apiKey topic language page_size store).2.filter
        (fun e => e.itemUrl == some url) = [] ∧
    (∀ store1 n1,
      (fetch_from_newsapi env http apiKey topic language page_size store).1 =
        Except.ok (store1, n1) →
      countUrl store1 url = countUrl store url) ∧
    (∀ store1 n1,
      (fetch_from_newsapi env http apiKey topic language page_size store).1 =
        Except.ok (store1, n1) →
      (fetch_from_newsapi env http apiKey topic language page_size store1).1 =
        Except.ok (store1, 0)) := by
  by_cases hkey : falsyStr apiKey = true
  · rw [fetch_eq_missing_key env http apiKey topic language page_size store hkey]
    refine ⟨rfl, ?_, ?_⟩
    · intro s n h
      exact absurd h (by simp)
    · intro s n h
      exact absurd h (by simp)
  · have hkey' : falsyStr apiKey = false := by simpa using hkey
    cases hhttp : http topic language page_size with
    | failure =>
      rw [fetch_eq_transport_failure env http apiKey topic language page_size
        store hkey' hhttp]
      refine ⟨rfl, ?_, ?_⟩
      · intro s n h
        have h' : store = s ∧ 0 = n := by simpa using h
        rw [← h'.1]
      · intro s n h
        have h' : store = s ∧ 0 = n := by simpa using h
        obtain ⟨rfl, rfl⟩ := h'
        rw [fetch_eq_transport_failure env http apiKey topic language page_size
          store hkey' hhttp]
    | success status message items =>
      by_cases hst : status = "ok"
      case neg =>
        rw [fetch_eq_bad_status env http apiKey topic language page_size store
          hkey' status message items hhttp hst]
        refine ⟨rfl, ?_, ?_⟩
        · intro s n h
          have h' : store = s ∧ 0 = n := by simpa using h
          rw [← h'.1]
        · intro s n h
          have h' : store = s ∧ 0 = n := by simpa using h
          obtain ⟨rfl, rfl⟩ := h'
          rw [fetch_eq_bad_status env http apiKey topic language page_size store
            hkey' status message items hhttp hst]
      case pos =>
        subst hst
        have htrfresh : ∀ e ∈ (run_items env topic
            (⟨store, [], 0⟩ : RunState) items).1.trace,
            (e.itemUrl == some url) = false := by
          intro e he
          rcases run_items_trace_fresh env topic url items ⟨store, [], 0⟩
            hurl e he with h | h
          · cases h
          · simp [h]
        rcases hrun : (run_items env topic
            (⟨store, [], 0⟩ : RunState) items).2 with _ | msg
        · rw [fetch_eq_ok_none env http apiKey topic language page_size store
            hkey' message items hhttp hrun]
          refine ⟨?_, ?_, ?_⟩
          · rw [List.filter_cons]
            have hhead : ((FetchEvent.apiQuery topic).itemUrl == some url) =
                false := rfl
            rw [hhead]
            simp only [Bool.false_eq_true, if_false]
            exact List.filter_eq_nil_iff.2
              (fun e he => by rw [htrfresh e he]; exact Bool.false_ne_true)
          · intro s n h
            have h' : (run_items env topic
                (⟨store, [], 0⟩ : RunState) items).1.store = s ∧
                (run_items env topic
                  (⟨store, [], 0⟩ : RunState) items).1.new_articles = n := by
              simpa using h
            rw [← h'.1]
            exact run_items_countUrl env topic url items ⟨store, [], 0⟩ hurl
          · intro s n h
            have h' : (run_items env topic
                (⟨store, [], 0⟩ : RunState) items).1.store = s ∧
                (run_items env topic
                  (⟨store, [], 0⟩ : RunState) items).1.new_articles = n := by
              simpa using h
            obtain ⟨rfl, rfl⟩ := h'
            have hcov := run_items_covers env topic items ⟨store, [], 0⟩ hrun
            obtain ⟨ha, hb, hc⟩ := run_items_all_covered env topic items
              ⟨(run_items env topic (⟨store, [], 0⟩ : RunState) items).1.store,
                [], 0⟩ hcov
            rw [fetch_eq_ok_none env http apiKey topic language page_size
              (run_items env topic (⟨store, [], 0⟩ : RunState) items).1.store
              hkey' message items hhttp hc]
            rw [ha, hb]
        · rw [fetch_eq_ok_some env http apiKey topic language page_size store
            hkey' message items msg hhttp hrun]
          refine ⟨?_, ?_, ?_⟩
          · rw [List.filter_cons]
            have hhead : ((FetchEvent.apiQuery topic).itemUrl == some url) =
                false := rfl
            rw [hhead]
            simp only [Bool.false_eq_true, if_false]
            exact List.filter_eq_nil_iff.2
              (fun e he => by rw [htrfresh e he]; exact Bool.false_ne_true)
          · intro s n h
            exact absurd h (by simp)
          · intro s n h
            exact absurd h (by simp)

/-- Witness for the amended C5: a store already holding URL `"u"`, an
incoming batch re-offering `"u"` with working extraction and
summarization oracles — the run produces no event for `"u"`. -/
theorem fetch_from_newsapi_dedup_witness :
    (fetch_from_newsapi
        ⟨fun _ => some "", fun _ _ => Except.ok "s", fun _ => "n",
          fun _ => "e", "p", 0⟩
        (fun _ _ _ => HttpResult.success "ok" none
          [⟨some "A", some "T", some "u", "S", some "P"⟩])
        (some "k") "ai" "en" 5
        [⟨"T0", "A0", "S0", "u", "c0", none, 0, "s0", "n0", none⟩]).2.filter
      (fun e => e.itemUrl == some "u") = [] :=
  (fetch_from_newsapi_dedup
    ⟨fun _ => some "", fun _ _ => Except.ok "s", fun _ => "n",
      fun _ => "e", "p", 0⟩
    (fun _ _ _ => HttpResult.success "ok" none
      [⟨some "A", some "T", some "u", "S", some "P"⟩])
    (some "k") "ai" "en" 5
    [⟨"T0", "A0", "S0", "u", "c0", none, 0, "s0", "n0", none⟩] "u"
    (by decide)).1

set_option maxRecDepth 8000 in
/-- C5 counterexample.  Configuration: `NEWS_API_KEY` is present,
`OPENAI_API_KEY` is unset — so `summarize_article` raises
`Exception("OpenAI API key not set.")` (its missing-key check precedes
its `try` block, see the C1 counterexample), and `fetch_from_newsapi`
calls it with no surrounding `try` — and the batch offers one fresh,
extractable item (URL `"v"`, 200 characters of text) while the store
already holds URL `"u"`.

The recursion-depth option only lets the kernel walk the 200-character
list; it changes no semantics.  The first run reaches the summarize step
of `"v"` and the exception escapes the loop: no row was committed (first
conjunct: the store is unchanged; second conjunct: the loop aborts with
the exception), so the
database after the first run equals the database before it, and the
second identical run is the very same call.  Third conjunct: that call
terminates with the escaping exception instead of returning a count — so
"running the same ingestion twice yields 0 on the second run" fails on
this reachable configuration. -/
theorem fetch_from_newsapi_second_run_raises :
    (run_items
        ⟨fun _ => some (String.mk (List.replicate 200 'a')),
         fun _ _ => Except.error "OpenAI API key not set.",
         fun _ => "neutral", fun _ => "[]", "now", 0⟩ "t"
        ⟨[⟨"T0", "A0", "S0", "u", "c0", none, 0, "s0", "n0", none⟩], [], 0⟩
        [⟨some "au", some "T", some "v", "S", some "P"⟩]).1.store =
      [⟨"T0", "A0", "S0", "u", "c0", none, 0, "s0", "n0", none⟩] ∧
    (run_items
        ⟨fun _ => some (String.mk (List.replicate 200 'a')),
         fun _ _ => Except.error "OpenAI API key not set.",
         fun _ => "neutral", fun _ => "[]", "now", 0⟩ "t"
        ⟨[⟨"T0", "A0", "S0", "u", "c0", none, 0, "s0", "n0", none⟩], [], 0⟩
        [⟨some "au", some "T", some "v", "S", some "P"⟩]).2 =
      some "OpenAI API key not set." ∧
    (fetch_from_newsapi
        ⟨fun _ => some (String.mk (List.replicate 200 'a')),
         fun _ _ => Except.error "OpenAI API key not set.",
         fun _ => "neutral", fun _ => "[]", "now", 0⟩
        (fun _ _ _ => HttpResult.success "ok" none
          [⟨some "au", some "T", some "v", "S", some "P"⟩])
        (some "k") "t" "en" 5
        [⟨"T0", "A0", "S0", "u", "c0", none, 0, "s0", "n0", none⟩]).1 =
      Except.error "OpenAI API key not set." :=
  ⟨rfl, rfl, rfl⟩

/-! ## C8 — rating clamp and the premature find-or-create commit -/

/-- `find?` over an append whose left part has no hit. -/
theorem find?_append_singleton {α : Type} (p : α → Bool) (l : List α) (x : α)
    (hl : l.find? p = none) (hx : p x = true) :
    (l ++ [x]).find? p = some x := by
  induction l with
  | nil => simp [List.find?_cons, hx]
  | cons a t ih =>
    cases hpa : p a with
    | true => rw [List.find?_cons_of_pos _ hpa] at hl; cases hl
    | false =>
      rw [List.find?_cons_of_neg _ (by simp [hpa])] at hl
      rw [List.cons_append, List.find?_cons_of_neg _ (by simp [hpa])]
      exact ih hl

/-- After find-or-create there is always a row for the pair. -/
theorem get_or_create_finds (store : List UserArticle) (uid aid now : Nat) :
    ∃ ua, ((get_or_create_user_article store uid aid now).2).find?
      (fun r => r.user_id == uid && r.article_id == aid) = some ua := by
  unfold get_or_create_user_article
  cases hf : store.find? (fun r => r.user_id == uid && r.article_id == aid) with
  | some ua => exact ⟨ua, hf⟩
  | none =>
    refine ⟨⟨uid, aid, "[]", none, none, now⟩, ?_⟩
    exact find?_append_singleton _ store _ hf (by simp)

/-- Setting the rating on the first matching row makes the stored rating
the set value. -/
theorem set_rating_first_rating_of (uid aid : Nat) (v : Int) (now : Nat) :
    ∀ store : List UserArticle,
      (store.find? (fun r => r.user_id == uid && r.article_id == aid)).isSome =
        true →
      rating_of (set_rating_first store uid aid v now) uid aid = some v := by
  intro store
  induction store with
  | nil => intro h; simp [List.find?] at h
  | cons r rs ih =>
    intro h
    by_cases hp : (r.user_id == uid && r.article_id == aid) = true
    · unfold set_rating_first
      rw [if_pos hp]
      unfold rating_of
      rw [List.find?_cons_of_pos]
      · rfl
      · exact hp
    · unfold set_rating_first
      rw [if_neg hp]
      unfold rating_of
      rw [List.find?_cons_of_neg _ (by simpa using hp)] at h
      rw [List.find?_cons_of_neg]
      · exact ih h
      · simpa using hp

/-- C8 counterexample: a non-numeric rating for a (user, article) pair
with no prior interaction row still creates (and commits) a fresh blank
row, because `get_or_create_user_article` runs before the rating is
parsed — the store does change. -/
theorem rate_article_invalid_creates_row :
    (rate_article [] 1 2 7 (some "abc")).1 = [⟨1, 2, "[]", none, none, 7⟩] ∧
    (rate_article [] 1 2 7 (some "abc")).2 = true := ⟨rfl, rfl⟩

/-- C8 amended: every numeric rating is clamped to `[1, 10]` and stored on
the pair's row; a non-numeric rating is rejected (flash) with no rating
written and no existing row changed — the store after rejection is exactly
the store after the find-or-create step, which equals the original store
whenever a row for the pair already existed, but contains a fresh blank
row otherwise. -/
theorem rate_article_clamp_amended (store : List UserArticle)
    (user_id article_id now : Nat) (rating_input : Option String) :
    (∀ r : Int, py_int_of_form rating_input = some r →
      rating_of (rate_article store user_id article_id now rating_input).1
          user_id article_id = some (max 1 (min 10 r)) ∧
      (rate_article store user_id article_id now rating_input).2 = false) ∧
    (py_int_of_form rating_input = none →
      (rate_article store user_id article_id now rating_input).1 =
        (get_or_create_user_article store user_id article_id now).2 ∧
      (rate_article store user_id article_id now rating_input).2 = true) ∧
    (py_int_of_form rating_input = none →
      (store.find? (fun x => x.user_id == user_id &&
        x.article_id == article_id)).isSome = true →
      (rate_article store user_id article_id now rating_input).1 = store) := by
  refine ⟨?_, ?_, ?_⟩
  · intro r hr
    simp only [rate_article, hr]
    refine ⟨?_, by trivial⟩
    apply set_rating_first_rating_of
    obtain ⟨ua, hua⟩ := get_or_create_finds store user_id article_id now
    rw [hua]
    rfl
  · intro hnone
    simp only [rate_article, hnone]
    constructor <;> trivial
  · intro hnone hfound
    simp only [rate_article, hnone]
    unfold get_or_create_user_article
    rcases Option.isSome_iff_exists.1 hfound with ⟨ua, hua⟩
    rw [hua]

/-- Witness for the amended C8: 15 is stored as 10, -3 as 1. -/
theorem rate_article_clamp_amended_witness :
    rating_of (rate_article [] 1 2 7 (some "15")).1 1 2 = some 10 ∧
    rating_of (rate_article [] 1 2 7 (some "-3")).1 1 2 = some 1 := by
  constructor
  · have h := ((rate_article_clamp_amended [] 1 2 7 (some "15")).1 15
      (by decide)).1
    have hc : max (1 : Int) (min 10 15) = 10 := by norm_num
    rw [hc] at h
    exact h
  · have h := ((rate_article_clamp_amended [] 1 2 7 (some "-3")).1 (-3)
      (by decide)).1
    have hc : max (1 : Int) (min 10 (-3)) = 1 := by norm_num
    rw [hc] at h
    exact h

end NewsMind
